import Mathlib

/-!
Verification of the qualify_tool backend (src/backend/main.py).

The whole core of the program is embedded shallowly below:

* `PredictRequest` / `PredictResponse` mirror the pydantic models
  (the fifteen binary questions are `conint(ge=0, le=1)`, embedded as `ℕ`
  together with the validity predicate `ValidRequest`).
* `LABELS`, `vectorize`, `wilson_interval`, `load_model` and the body of the
  `/predict` handler (`classify` and `predict`) are translated line by line
  from the source.  Python floats are idealised as real numbers, so
  `x ** 0.5` becomes `Real.sqrt`, and the `ZeroDivisionError` raised by
  `wilson_interval` when `n = 0` is embedded by returning `Option`.
* The trained artifact (`model.pkl`) is not part of the repository, so the
  object returned by `joblib.load` is modelled from the spec (see
  `ArtifactModel`), and the possible states of the file at `MODEL_PATH`
  are modelled by `ArtifactFile`.
-/

/-- The request model: fifteen binary answers plus the use-case name
(`PredictRequest` in main.py, fields in source order). -/
structure PredictRequest where
  use_case_name : String
  is_process_simple : ℕ
  can_specify_business_rules : ℕ
  will_occasional_errors_be_tolerated : ℕ
  will_error_be_propagated : ℕ
  is_use_case_transactional_in_nature : ℕ
  are_you_building_learning_system : ℕ
  high_stakes_environment : ℕ
  hyper_personalization : ℕ
  unstructured_text_input : ℕ
  is_input_data_multi_modal : ℕ
  language_generation : ℕ
  are_autonomous_decisions_required : ℕ
  is_reasoning_required : ℕ
  tool_integration : ℕ
  dynamic_goals : ℕ

/-- The boundary validation performed by pydantic: every one of the fifteen
binary fields is `conint(ge=0, le=1)`; over `ℕ` only the upper bound is a
constraint. -/
def ValidRequest (r : PredictRequest) : Prop :=
  r.is_process_simple ≤ 1 ∧
  r.can_specify_business_rules ≤ 1 ∧
  r.will_occasional_errors_be_tolerated ≤ 1 ∧
  r.will_error_be_propagated ≤ 1 ∧
  r.is_use_case_transactional_in_nature ≤ 1 ∧
  r.are_you_building_learning_system ≤ 1 ∧
  r.high_stakes_environment ≤ 1 ∧
  r.hyper_personalization ≤ 1 ∧
  r.unstructured_text_input ≤ 1 ∧
  r.is_input_data_multi_modal ≤ 1 ∧
  r.language_generation ≤ 1 ∧
  r.are_autonomous_decisions_required ≤ 1 ∧
  r.is_reasoning_required ≤ 1 ∧
  r.tool_integration ≤ 1 ∧
  r.dynamic_goals ≤ 1

instance (r : PredictRequest) : Decidable (ValidRequest r) := by
  unfold ValidRequest; infer_instance

/-- The response model (`PredictResponse` in main.py). -/
structure PredictResponse where
  label : String
  avg_confidence : ℝ
  ucl : ℝ
  lcl : ℝ

/-- The process-wide label list (`LABELS` in main.py, line 45). -/
def LABELS : List String :=
  ["Agentic AI", "Classical ML", "Gen AI", "Business Automation"]

/-- Modelled from the spec: the trained Artifact itself is not under src/
(only its loader and caller are), so per spec section 4.1 it either supports
probability output — a probability distribution over the four labels — or
only a bare label prediction.  The functions consume the vectorized
feature row produced by `vectorize`. -/
structure ArtifactModel where
  predictProba : Option (List ℝ → Fin 4 → ℝ)
  predictLabel : List ℝ → Fin 4

/-- The possible states of the file at `MODEL_PATH` as seen by
`load_model`: absent, present and loadable by `joblib.load`, or present but
corrupt / in the wrong format (in which case `joblib.load` raises). -/
inductive ArtifactFile where
  | missing : ArtifactFile
  | valid : ArtifactModel → ArtifactFile
  | corrupt : ArtifactFile

/-- Translated from `load_model` (main.py lines 47-51): if the file exists
it is handed to `joblib.load`, otherwise the result is `none` (heuristic
mode).  There is no exception handler, so an unpickling failure on a
corrupt or wrong-format file propagates out of startup; that fallible call
is embedded as `Except`. -/
def load_model (file : ArtifactFile) : Except String (Option ArtifactModel) :=
  match file with
  | ArtifactFile.missing => Except.ok none
  | ArtifactFile.valid m => Except.ok (some m)
  | ArtifactFile.corrupt => Except.error "joblib.load failed to unpickle the file"

/-- Translated from `vectorize` (main.py lines 55-72): the single row of the
feature matrix, the fifteen binary answers cast to float, in source order. -/
def vectorize (r : PredictRequest) : List ℝ :=
  [(r.is_process_simple : ℝ),
   (r.can_specify_business_rules : ℝ),
   (r.will_occasional_errors_be_tolerated : ℝ),
   (r.will_error_be_propagated : ℝ),
   (r.is_use_case_transactional_in_nature : ℝ),
   (r.are_you_building_learning_system : ℝ),
   (r.high_stakes_environment : ℝ),
   (r.hyper_personalization : ℝ),
   (r.unstructured_text_input : ℝ),
   (r.is_input_data_multi_modal : ℝ),
   (r.language_generation : ℝ),
   (r.are_autonomous_decisions_required : ℝ),
   (r.is_reasoning_required : ℝ),
   (r.tool_integration : ℝ),
   (r.dynamic_goals : ℝ)]

/-- The Wilson centre `(p + z^2/(2n)) / (1 + z^2/n)` (main.py line 77,
with `denom` of line 76 inlined). -/
noncomputable def wilsonCenter (p : ℝ) (n : ℕ) (z : ℝ) : ℝ :=
  (p + z ^ 2 / (2 * n)) / (1 + z ^ 2 / n)

/-- The Wilson half-width `z * sqrt(p(1-p)/n + z^2/(4 n^2)) / (1 + z^2/n)`
(main.py line 78, with `denom` of line 76 inlined; `** 0.5` on a
non-negative float is `Real.sqrt`). -/
noncomputable def wilsonHalf (p : ℝ) (n : ℕ) (z : ℝ) : ℝ :=
  z * Real.sqrt (p * (1 - p) / n + z ^ 2 / (4 * (n : ℝ) ^ 2)) / (1 + z ^ 2 / n)

/-- Translated from `wilson_interval` (main.py lines 74-81).  With `n = 0`
every division by `n` raises `ZeroDivisionError` in Python, embedded as
`none`; otherwise the result is `(lcl, ucl) = (max(0, center - half),
min(1, center + half))`. -/
noncomputable def wilson_interval (p : ℝ) (n : ℕ) (z : ℝ) : Option (ℝ × ℝ) :=
  if n = 0 then none
  else some (max 0 (wilsonCenter p n z - wilsonHalf p n z),
             min 1 (wilsonCenter p n z + wilsonHalf p n z))

/-- The default pseudo-sample-size of `wilson_interval` (main.py line 74). -/
def WILSON_N_DEFAULT : ℕ := 100

/-- The default normal quantile of `wilson_interval` (main.py line 74). -/
noncomputable def WILSON_Z_DEFAULT : ℝ := 1.96

/-- First index of the maximum of a length-4 probability row:
`int(np.argmax(proba))` keeps the earliest index on ties, which the
left-to-right scan with strict improvement reproduces. -/
noncomputable def argmax4 (f : Fin 4 → ℝ) : Fin 4 :=
  let b1 : Fin 4 := if f 0 < f 1 then 1 else 0
  let b2 : Fin 4 := if f b1 < f 2 then 2 else b1
  if f b2 < f 3 then 3 else b2

/-- Translated from the classification part of `predict` (main.py lines
89-115): the pair `(pred_idx, p)`.  With a model present, either the
probability branch (`predict_proba`, argmax, probability of the argmax) or
the bare-prediction branch with the fixed placeholder `0.75`; with no model,
the heuristic fallback.  Python truthiness on the validated ints (`if
req.language_generation:` and `a and not b`) is the test against `0`. -/
noncomputable def classify (model : Option ArtifactModel) (req : PredictRequest) : ℕ × ℝ :=
  match model with
  | some m =>
    match m.predictProba with
    | some proba =>
      let pr := proba (vectorize req)
      let pred_idx := argmax4 pr
      ((pred_idx : ℕ), pr pred_idx)
    | none => ((m.predictLabel (vectorize req) : ℕ), 0.75)
  | none =>
    let agentic_score := req.are_autonomous_decisions_required +
      req.is_reasoning_required + req.tool_integration + req.dynamic_goals
    let pred_idx : ℕ :=
      if req.language_generation ≠ 0 then 2
      else if 3 ≤ agentic_score then 0
      else if req.can_specify_business_rules ≠ 0 ∧
          req.are_you_building_learning_system = 0 then 3
      else 1
    (pred_idx, 0.70)

/-- Translated from `predict` (main.py lines 87-118): classify, compute the
Wilson interval of the confidence at the default `n` and `z`, and assemble
the response.  `LABELS[pred_idx]` is embedded with `List.getD` (the index is
proved to be in range in `predict_label_index_in_range`), and the interval
call, which never fails at `n = 100`, is unwrapped with `Option.getD`. -/
noncomputable def predict (model : Option ArtifactModel) (req : PredictRequest) : PredictResponse :=
  let c := classify model req
  let lu := (wilson_interval c.2 WILSON_N_DEFAULT WILSON_Z_DEFAULT).getD (0, 0)
  { label := LABELS.getD c.1 "", avg_confidence := c.2, ucl := lu.2, lcl := lu.1 }

/-- Number of entries equal to 1 in a list, used to state the spec wording
"at least 3 of the four agentic fields are 1". -/
def countOnes (l : List ℕ) : ℕ := (l.filter (fun x => x = 1)).length

/-- The four-branch fallback decision procedure exactly as the spec words
it (section 4.1, fallback mode), first matching branch wins. -/
def fallbackSpecIdx (r : PredictRequest) : ℕ :=
  if r.language_generation = 1 then 2
  else if 3 ≤ countOnes [r.are_autonomous_decisions_required,
      r.is_reasoning_required, r.tool_integration, r.dynamic_goals] then 0
  else if r.can_specify_business_rules = 1 ∧
      r.are_you_building_learning_system = 0 then 3
  else 1

/-- The Wilson score interval exactly as the spec words it (section 4.2):
`denom`, `center`, `half`, then clamping. -/
noncomputable def wilson_interval_spec (p : ℝ) (n : ℕ) (z : ℝ) : ℝ × ℝ :=
  let denom := 1 + z ^ 2 / n
  let center := (p + z ^ 2 / (2 * n)) / denom
  let half := z * Real.sqrt (p * (1 - p) / n + z ^ 2 / (4 * (n : ℝ) ^ 2)) / denom
  (max 0 (center - half), min 1 (center + half))

/-- The all-zero request of the spec's concrete scenario (section 8, item 8):
all fifteen binary fields 0, name "x". -/
def allZeroRequest : PredictRequest :=
  { use_case_name := "x"
    is_process_simple := 0
    can_specify_business_rules := 0
    will_occasional_errors_be_tolerated := 0
    will_error_be_propagated := 0
    is_use_case_transactional_in_nature := 0
    are_you_building_learning_system := 0
    high_stakes_environment := 0
    hyper_personalization := 0
    unstructured_text_input := 0
    is_input_data_multi_modal := 0
    language_generation := 0
    are_autonomous_decisions_required := 0
    is_reasoning_required := 0
    tool_integration := 0
    dynamic_goals := 0 }

/-- A request that differs from `allZeroRequest` only in binary fields the
fallback heuristic never reads. -/
def reqOtherFieldsOne : PredictRequest :=
  { allZeroRequest with
    is_process_simple := 1
    will_occasional_errors_be_tolerated := 1
    high_stakes_environment := 1
    unstructured_text_input := 1 }

theorem countOnes_eq_sum (a b c d : ℕ) (ha : a ≤ 1) (hb : b ≤ 1)
    (hc : c ≤ 1) (hd : d ≤ 1) :
    countOnes [a, b, c, d] = a + b + c + d := by
  rcases Nat.le_one_iff_eq_zero_or_eq_one.mp ha with rfl | rfl <;>
  rcases Nat.le_one_iff_eq_zero_or_eq_one.mp hb with rfl | rfl <;>
  rcases Nat.le_one_iff_eq_zero_or_eq_one.mp hc with rfl | rfl <;>
  rcases Nat.le_one_iff_eq_zero_or_eq_one.mp hd with rfl | rfl <;> rfl

/-- C1: in fallback mode (no artifact loaded), classification of a valid
request follows the spec's four-branch priority procedure with the first
matching branch winning, and the returned confidence is exactly 0.70 in
every case. -/
theorem heuristic_fallback_matches_spec_procedure (req : PredictRequest)
    (h : ValidRequest req) :
    classify none req = (fallbackSpecIdx req, 0.70) := by
  unfold ValidRequest at h
  obtain ⟨-, h2, -, -, -, h6, -, -, -, -, h11, h12, h13, h14, h15⟩ := h
  simp only [classify, fallbackSpecIdx]
  rw [countOnes_eq_sum _ _ _ _ h12 h13 h14 h15]
  rcases Nat.le_one_iff_eq_zero_or_eq_one.mp h11 with hlg | hlg <;>
  rcases Nat.le_one_iff_eq_zero_or_eq_one.mp h2 with hbr | hbr <;>
  simp [hlg, hbr]

theorem heuristic_fallback_matches_spec_procedure_witness :
    ValidRequest allZeroRequest ∧
    classify none allZeroRequest = (fallbackSpecIdx allZeroRequest, 0.70) :=
  ⟨by decide, heuristic_fallback_matches_spec_procedure allZeroRequest (by decide)⟩

/-- C2: for every `p`, every `n > 0` and every `z`, `wilson_interval`
returns exactly the clamped Wilson score interval of the spec's section 4.2
formula, and its defaults are `n = 100`, `z = 1.96`. -/
theorem wilson_interval_matches_spec_formula (p z : ℝ) (n : ℕ) (hn : 0 < n) :
    wilson_interval p n z = some (wilson_interval_spec p n z) ∧
    WILSON_N_DEFAULT = 100 ∧ WILSON_Z_DEFAULT = 1.96 := by
  refine ⟨?_, rfl, rfl⟩
  rw [wilson_interval, if_neg hn.ne']
  rfl

theorem wilson_interval_matches_spec_formula_witness :
    wilson_interval 0.5 100 1.96 = some (wilson_interval_spec 0.5 100 1.96) ∧
    WILSON_N_DEFAULT = 100 ∧ WILSON_Z_DEFAULT = 1.96 :=
  wilson_interval_matches_spec_formula 0.5 1.96 100 (by norm_num)

/-- C4 counterexample: a corrupt (or wrong-format) artifact file is a
loading failure, yet `load_model` does not fall back to heuristic mode on
it — `joblib.load` has no exception handler around it, so the error
propagates and startup does not complete. -/
theorem load_model_corrupt_file_raises :
    load_model ArtifactFile.corrupt ≠ Except.ok none ∧
    load_model ArtifactFile.corrupt =
      Except.error "joblib.load failed to unpickle the file" :=
  ⟨by simp [load_model], rfl⟩

/-- C4 amended: only a missing artifact file is survived — startup then
completes with no artifact and heuristic mode; a loadable file yields the
model; but a corrupt or wrong-format file makes `joblib.load` raise, and
the exception escapes `load_model`. -/
theorem load_model_missing_falls_back_corrupt_raises :
    load_model ArtifactFile.missing = Except.ok none ∧
    (∀ m : ArtifactModel, load_model (ArtifactFile.valid m) = Except.ok (some m)) ∧
    ∃ e, load_model ArtifactFile.corrupt = Except.error e :=
  ⟨rfl, fun _ => rfl, "joblib.load failed to unpickle the file", rfl⟩

/-- C6: `wilson_interval` with `n = 0` fails with a division-by-zero error
(embedded as `none`), and for every `n > 0`, `p` in the unit interval and
non-negative `z` it succeeds. -/
theorem wilson_interval_division_by_zero (p z : ℝ) (n : ℕ) :
    wilson_interval p 0 z = none ∧
    (0 < n → 0 ≤ p → p ≤ 1 → 0 ≤ z → (wilson_interval p n z).isSome = true) := by
  constructor
  · rw [wilson_interval, if_pos rfl]
  · intro hn _ _ _
    rw [wilson_interval, if_neg hn.ne']
    rfl

theorem wilson_interval_division_by_zero_witness :
    wilson_interval 0.7 0 1.96 = none ∧
    (wilson_interval 0.7 100 1.96).isSome = true :=
  ⟨(wilson_interval_division_by_zero 0.7 1.96 100).1,
   (wilson_interval_division_by_zero 0.7 1.96 100).2
     (by norm_num) (by norm_num) (by norm_num) (by norm_num)⟩

theorem labels_getD_eq_get (i : ℕ) (hi : i < 4) :
    ∃ h : i < LABELS.length, LABELS.getD i "" = LABELS.get ⟨i, h⟩ := by
  interval_cases i <;> exact ⟨by decide, rfl⟩

/-- C8: for every request and either strategy, the classification index is
one of 0, 1, 2, 3, and the response's label string is that index read off
the fixed ordered label list, whose exact contents are pinned. -/
theorem predict_label_index_in_range (m : Option ArtifactModel)
    (req : PredictRequest) :
    ((classify m req).1 = 0 ∨ (classify m req).1 = 1 ∨
      (classify m req).1 = 2 ∨ (classify m req).1 = 3) ∧
    LABELS = ["Agentic AI", "Classical ML", "Gen AI", "Business Automation"] ∧
    ∃ h : (classify m req).1 < LABELS.length,
      (predict m req).label = LABELS.get ⟨(classify m req).1, h⟩ := by
  have hidx : (classify m req).1 < 4 := by
    rcases m with _ | ⟨pf, pl⟩
    · simp only [classify]
      split_ifs <;> norm_num
    · rcases pf with _ | f
      · simpa only [classify] using (pl (vectorize req)).isLt
      · simpa only [classify] using (argmax4 (f (vectorize req))).isLt
  obtain ⟨h4, hget⟩ := labels_getD_eq_get (classify m req).1 hidx
  refine ⟨by omega, rfl, h4, ?_⟩
  simpa only [predict] using hget

/-- C9: the use-case name is carried through but has no influence: two
requests agreeing on all fifteen binary fields and differing only in the
name produce identical responses, whichever strategy is active. -/
theorem predict_ignores_use_case_name (m : Option ArtifactModel)
    (r : PredictRequest) (s : String) :
    predict m { r with use_case_name := s } = predict m r := by
  rcases m with _ | ⟨pf, pl⟩
  · rfl
  · rcases pf with _ | f <;> rfl

/-- C10: in fallback mode the entire response depends only on the seven
fields the heuristic reads; requests agreeing on those seven may differ
arbitrarily in the other eight binary fields (and the name) without
changing the output. -/
theorem predict_fallback_depends_only_on_seven_fields
    (r1 r2 : PredictRequest)
    (hlg : r1.language_generation = r2.language_generation)
    (had : r1.are_autonomous_decisions_required = r2.are_autonomous_decisions_required)
    (hrr : r1.is_reasoning_required = r2.is_reasoning_required)
    (hti : r1.tool_integration = r2.tool_integration)
    (hdg : r1.dynamic_goals = r2.dynamic_goals)
    (hbr : r1.can_specify_business_rules = r2.can_specify_business_rules)
    (hls : r1.are_you_building_learning_system = r2.are_you_building_learning_system) :
    predict none r1 = predict none r2 := by
  have hc : classify none r1 = classify none r2 := by
    simp only [classify, hlg, had, hrr, hti, hdg, hbr, hls]
  simp only [predict, hc]

theorem predict_fallback_depends_only_on_seven_fields_witness :
    predict none reqOtherFieldsOne = predict none allZeroRequest :=
  predict_fallback_depends_only_on_seven_fields reqOtherFieldsOne allZeroRequest
    rfl rfl rfl rfl rfl rfl rfl

theorem wilson_center_close (p : ℝ) (hp0 : 0 ≤ p) (hp1 : p ≤ 1)
    (n : ℕ) (hn : 0 < n) (z : ℝ) (hz : 0 ≤ z) :
    |wilsonCenter p n z - p| ≤ wilsonHalf p n z := by
  have hN : (0 : ℝ) < n := by exact_mod_cast hn
  have hd : (0 : ℝ) < 1 + z ^ 2 / n := by positivity
  have hpq : 0 ≤ p * (1 - p) := mul_nonneg hp0 (by linarith)
  have hR : 0 ≤ p * (1 - p) / n + z ^ 2 / (4 * (n : ℝ) ^ 2) :=
    add_nonneg (div_nonneg hpq hN.le) (by positivity)
  have key : wilsonCenter p n z - p =
      (z ^ 2 / (2 * n) - p * (z ^ 2 / n)) / (1 + z ^ 2 / n) := by
    unfold wilsonCenter
    field_simp
    ring
  rw [key, wilsonHalf, abs_div, abs_of_pos hd]
  gcongr
  have hzr : z * Real.sqrt (p * (1 - p) / n + z ^ 2 / (4 * (n : ℝ) ^ 2)) =
      Real.sqrt (z ^ 2 * (p * (1 - p) / n + z ^ 2 / (4 * (n : ℝ) ^ 2))) := by
    rw [Real.sqrt_mul (sq_nonneg z), Real.sqrt_sq hz]
  rw [hzr, ← Real.sqrt_sq_eq_abs]
  apply Real.sqrt_le_sqrt
  have expand : (z ^ 2 / (2 * (n : ℝ)) - p * (z ^ 2 / n)) ^ 2 =
      z ^ 2 * (p * (1 - p) / n + z ^ 2 / (4 * (n : ℝ) ^ 2)) -
      (z ^ 2 * (p * (1 - p)) / n + z ^ 4 * (p * (1 - p)) / (n : ℝ) ^ 2) := by
    field_simp
    ring
  have t1 : 0 ≤ z ^ 2 * (p * (1 - p)) / (n : ℝ) :=
    div_nonneg (mul_nonneg (sq_nonneg z) hpq) hN.le
  have t2 : 0 ≤ z ^ 4 * (p * (1 - p)) / (n : ℝ) ^ 2 :=
    div_nonneg (mul_nonneg (by positivity) hpq) (by positivity)
  rw [expand]
  linarith

/-- C3: with the default `n = 100` and `z = 1.96`, for every `p` in the
unit interval the interval returned by `wilson_interval` satisfies
`0 ≤ lower ≤ p ≤ upper ≤ 1`; in particular it contains `p`. -/
theorem wilson_interval_brackets_confidence (p : ℝ) (hp0 : 0 ≤ p) (hp1 : p ≤ 1) :
    ∃ l u, wilson_interval p WILSON_N_DEFAULT WILSON_Z_DEFAULT = some (l, u) ∧
      0 ≤ l ∧ l ≤ p ∧ p ≤ u ∧ u ≤ 1 := by
  have habs := wilson_center_close p hp0 hp1 100 (by norm_num) 1.96 (by norm_num)
  obtain ⟨h1, h2⟩ := abs_sub_le_iff.mp habs
  refine ⟨max 0 (wilsonCenter p 100 1.96 - wilsonHalf p 100 1.96),
          min 1 (wilsonCenter p 100 1.96 + wilsonHalf p 100 1.96),
          ?_, le_max_left 0 _, ?_, ?_, min_le_left 1 _⟩
  · rw [show WILSON_N_DEFAULT = 100 from rfl, show WILSON_Z_DEFAULT = (1.96 : ℝ) from rfl,
      wilson_interval, if_neg (by norm_num)]
  · exact max_le hp0 (by linarith)
  · exact le_min hp1 (by linarith)

theorem wilson_interval_brackets_confidence_witness :
    (0 : ℝ) ≤ 0.7 ∧ (0.7 : ℝ) ≤ 1 ∧
    ∃ l u, wilson_interval 0.7 WILSON_N_DEFAULT WILSON_Z_DEFAULT = some (l, u) ∧
      0 ≤ l ∧ l ≤ 0.7 ∧ (0.7 : ℝ) ≤ u ∧ u ≤ 1 :=
  ⟨by norm_num, by norm_num,
   wilson_interval_brackets_confidence 0.7 (by norm_num) (by norm_num)⟩

/-- C7: with the defaults `n = 100`, `z = 1.96`, the interval at `p = 0`
has lower limit exactly 0, and the interval at `p = 1` has upper limit
exactly 1. -/
theorem wilson_interval_extremes :
    (wilson_interval 0 WILSON_N_DEFAULT WILSON_Z_DEFAULT).map Prod.fst = some 0 ∧
    (wilson_interval 1 WILSON_N_DEFAULT WILSON_Z_DEFAULT).map Prod.snd = some 1 := by
  have h0 : (0 : ℝ) * (1 - 0) / ((100 : ℕ) : ℝ) +
      (1.96 : ℝ) ^ 2 / (4 * ((100 : ℕ) : ℝ) ^ 2) = 0.0098 ^ 2 := by
    push_cast; norm_num
  have h1 : (1 : ℝ) * (1 - 1) / ((100 : ℕ) : ℝ) +
      (1.96 : ℝ) ^ 2 / (4 * ((100 : ℕ) : ℝ) ^ 2) = 0.0098 ^ 2 := by
    push_cast; norm_num
  have hs0 : wilsonHalf 0 100 1.96 = 1.96 * 0.0098 / (1 + 1.96 ^ 2 / ((100 : ℕ) : ℝ)) := by
    unfold wilsonHalf
    rw [h0, Real.sqrt_sq (by norm_num)]
  have hs1 : wilsonHalf 1 100 1.96 = 1.96 * 0.0098 / (1 + 1.96 ^ 2 / ((100 : ℕ) : ℝ)) := by
    unfold wilsonHalf
    rw [h1, Real.sqrt_sq (by norm_num)]
  constructor
  · rw [show WILSON_N_DEFAULT = 100 from rfl, show WILSON_Z_DEFAULT = (1.96 : ℝ) from rfl,
      wilson_interval, if_neg (by norm_num)]
    have hch : wilsonCenter 0 100 1.96 - wilsonHalf 0 100 1.96 = 0 := by
      rw [hs0]; unfold wilsonCenter; push_cast; norm_num
    simp [hch]
  · rw [show WILSON_N_DEFAULT = 100 from rfl, show WILSON_Z_DEFAULT = (1.96 : ℝ) from rfl,
      wilson_interval, if_neg (by norm_num)]
    have hch : wilsonCenter 1 100 1.96 + wilsonHalf 1 100 1.96 = 1 := by
      rw [hs1]; unfold wilsonCenter; push_cast; norm_num
    simp [hch]

theorem predict_allZero_response :
    predict none allZeroRequest =
      { label := "Classical ML", avg_confidence := 0.70,
        ucl := min 1 (wilsonCenter 0.70 100 1.96 + wilsonHalf 0.70 100 1.96),
        lcl := max 0 (wilsonCenter 0.70 100 1.96 - wilsonHalf 0.70 100 1.96) } := by
  have hcl : classify none allZeroRequest = (1, 0.70) := by
    norm_num [classify, allZeroRequest]
  simp only [predict]
  rw [hcl, show WILSON_N_DEFAULT = 100 from rfl,
    show WILSON_Z_DEFAULT = (1.96 : ℝ) from rfl, wilson_interval, if_neg (by norm_num)]
  simp [LABELS]

theorem sqrt_00219604_bounds :
    (0.046861 : ℝ) ≤ Real.sqrt 0.00219604 ∧ Real.sqrt 0.00219604 ≤ 0.046863 := by
  constructor
  · have h := Real.sqrt_le_sqrt (show ((0.046861 : ℝ)) ^ 2 ≤ 0.00219604 by norm_num)
    rwa [Real.sqrt_sq (by norm_num : (0 : ℝ) ≤ 0.046861)] at h
  · have h := Real.sqrt_le_sqrt (show (0.00219604 : ℝ) ≤ 0.046863 ^ 2 by norm_num)
    rwa [Real.sqrt_sq (by norm_num : (0 : ℝ) ≤ 0.046863)] at h

theorem wilsonHalf_07_bounds :
    (0.08844 : ℝ) ≤ wilsonHalf 0.70 100 1.96 ∧ wilsonHalf 0.70 100 1.96 ≤ 0.08846 := by
  have hrad : (0.70 : ℝ) * (1 - 0.70) / ((100 : ℕ) : ℝ) +
      (1.96 : ℝ) ^ 2 / (4 * ((100 : ℕ) : ℝ) ^ 2) = 0.00219604 := by
    push_cast; norm_num
  have heq : wilsonHalf 0.70 100 1.96 =
      1.96 * Real.sqrt 0.00219604 / (1 + 1.96 ^ 2 / ((100 : ℕ) : ℝ)) := by
    unfold wilsonHalf; rw [hrad]
  obtain ⟨hl, hu⟩ := sqrt_00219604_bounds
  rw [heq, show (1 : ℝ) + 1.96 ^ 2 / ((100 : ℕ) : ℝ) = 1.038416 by push_cast; norm_num]
  constructor
  · rw [le_div_iff₀ (by norm_num : (0 : ℝ) < 1.038416)]
    nlinarith [hl]
  · rw [div_le_iff₀ (by norm_num : (0 : ℝ) < 1.038416)]
    nlinarith [hu]

theorem wilsonCenter_07_eq : wilsonCenter 0.70 100 1.96 = 0.719208 / 1.038416 := by
  unfold wilsonCenter; push_cast; norm_num

theorem predict_allZero_lcl_ucl_bounds :
    0.604 < (predict none allZeroRequest).lcl ∧ (predict none allZeroRequest).lcl < 0.605 ∧
    0.781 < (predict none allZeroRequest).ucl ∧ (predict none allZeroRequest).ucl < 0.782 := by
  rw [predict_allZero_response]
  obtain ⟨hhl, hhu⟩ := wilsonHalf_07_bounds
  have hc := wilsonCenter_07_eq
  simp only []
  rw [hc]
  have hsub : (0.604 : ℝ) < 0.719208 / 1.038416 - wilsonHalf 0.70 100 1.96 ∧
      0.719208 / 1.038416 - wilsonHalf 0.70 100 1.96 < 0.605 := by
    constructor <;> nlinarith [hhl, hhu]
  have hadd : (0.781 : ℝ) < 0.719208 / 1.038416 + wilsonHalf 0.70 100 1.96 ∧
      0.719208 / 1.038416 + wilsonHalf 0.70 100 1.96 < 0.782 := by
    constructor <;> nlinarith [hhl, hhu]
  rw [max_eq_right (by linarith [hsub.1] : (0 : ℝ) ≤ 0.719208 / 1.038416 - wilsonHalf 0.70 100 1.96),
    min_eq_right (by linarith [hadd.2] : 0.719208 / 1.038416 + wilsonHalf 0.70 100 1.96 ≤ 1)]
  exact ⟨hsub.1, hsub.2, hadd.1, hadd.2⟩

/-- C5 counterexample: for the all-zero request the interval limits
produced by the code are not the spec's claimed values — both are more
than 0.01 away from 0.617 and 0.769 (the Wilson formula itself gives
lcl about 0.6042 and ucl about 0.7811 at p = 0.7, n = 100, z = 1.96). -/
theorem predict_allZero_interval_far_from_claimed :
    0.01 < |(predict none allZeroRequest).lcl - 0.617| ∧
    0.01 < |(predict none allZeroRequest).ucl - 0.769| := by
  obtain ⟨h1, h2, h3, h4⟩ := predict_allZero_lcl_ucl_bounds
  constructor
  · exact lt_abs.mpr (Or.inr (by linarith))
  · exact lt_abs.mpr (Or.inl (by linarith))

/-- C5 amended: in fallback mode the all-zero request yields label
"Classical ML" with avg_confidence 0.70, and its lcl and ucl are
approximately 0.604 and 0.781 — the exact values of the Wilson formula of
spec section 4.2 at p = 0.7, n = 100, z = 1.96 (not 0.617 and 0.769 as the
spec's concrete scenario states). -/
theorem predict_allZero_scenario :
    (predict none allZeroRequest).label = "Classical ML" ∧
    (predict none allZeroRequest).avg_confidence = 0.70 ∧
    0.604 < (predict none allZeroRequest).lcl ∧ (predict none allZeroRequest).lcl < 0.605 ∧
    0.781 < (predict none allZeroRequest).ucl ∧ (predict none allZeroRequest).ucl < 0.782 := by
  obtain ⟨h1, h2, h3, h4⟩ := predict_allZero_lcl_ucl_bounds
  refine ⟨?_, ?_, h1, h2, h3, h4⟩
  · rw [predict_allZero_response]
  · rw [predict_allZero_response]
